import Mathlib

/-!
Shallow embedding of `gossip/integration/integration.go` from hyperledger/fabric
(integration bootstrap for a gossip node), together with theorems checking the
natural-language specification against it.

Strings are modelled as `List Char`; Go byte slices as `List Nat` (each entry a
byte value); Go `error` results as `Option String` (`none` = nil error);
Go panics in `newConfig`/`NewGossipComponent` as `Except BootstrapError`.
-/

namespace FabricGossipIntegration

/-- Go `bytes.Equal`: reports whether two byte slices have the same bytes. -/
def bytesEqual (a b : List Nat) : Bool := a == b

/-- Go `strings.Split(s, sep)` for a single-character separator: the list of
substrings between occurrences of `sep`; `Split("", sep) = [""]`. -/
def goSplit (sep : Char) : List Char → List (List Char)
  | [] => [[]]
  | c :: rest =>
    let r := goSplit sep rest
    if c = sep then [] :: r
    else (c :: r.headI) :: r.tail

/-- Value of one decimal digit character, `none` for a non-digit. -/
def digitVal (c : Char) : Option Nat :=
  if c.isDigit then some (c.toNat - '0'.toNat) else none

/-- Decimal value of a nonempty all-digit character list; `none` when the list
is empty or contains a non-digit. -/
def parseDigits (cs : List Char) : Option Nat :=
  match cs with
  | [] => none
  | _ => cs.foldl (fun acc c => acc.bind (fun n => (digitVal c).map (fun d => n * 10 + d))) (some 0)

/-- Largest value representable in Go's `int64`. -/
def int64Max : Int := 2 ^ 63 - 1

/-- Smallest value representable in Go's `int64`. -/
def int64Min : Int := -(2 ^ 63)

/-- Go `strconv.ParseInt(s, 10, 64)`: an optional leading sign followed by a
nonempty run of decimal digits, with the result required to fit in `int64`;
`none` models a non-nil error. -/
def parseInt64 (s : List Char) : Option Int :=
  let signAndDigits : Bool × List Char :=
    match s with
    | '+' :: rest => (false, rest)
    | '-' :: rest => (true, rest)
    | _ => (false, s)
  (parseDigits signAndDigits.2).bind (fun n =>
    let v : Int := if signAndDigits.1 then -(n : Int) else (n : Int)
    if int64Min ≤ v ∧ v ≤ int64Max then some v else none)

/-- Go `time.Millisecond` in nanoseconds. -/
def goMillisecond : Nat := 1000000

/-- Go `time.Second` in nanoseconds. -/
def goSecond : Nat := 1000000000

/-- The `gossip.Config` struct as populated by `newConfig` (fields as in the
composite literal in the source; durations in nanoseconds). -/
structure Config where
  BindPort : Int
  BootstrapPeers : List (List Char)
  ID : List Char
  MaxMessageCountToStore : Nat
  MaxPropagationBurstLatency : Nat
  MaxPropagationBurstSize : Nat
  PropagateIterations : Nat
  PropagatePeerNum : Nat
  PullInterval : Nat
  PullPeerNum : Nat
  SelfEndpoint : List Char
deriving DecidableEq, Repr

/-- The two ways `newConfig` can panic: indexing `[1]` into a split with fewer
than two segments, and `panic(err)` after a failed `strconv.ParseInt`. -/
inductive BootstrapError
  | indexOutOfRange
  | configParseError
deriving DecidableEq, Repr

/-- `newConfig(selfEndpoint, bootPeers...)`: split `selfEndpoint` on `:`, take
segment 1, parse it as a base-10 64-bit integer, and build the config; panics
are modelled as `Except.error`. -/
def newConfig (selfEndpoint : List Char) (bootPeers : List (List Char)) :
    Except BootstrapError Config :=
  match (goSplit ':' selfEndpoint)[1]? with
  | none => .error .indexOutOfRange
  | some portSeg =>
    match parseInt64 portSeg with
    | none => .error .configParseError
    | some port =>
      .ok { BindPort := port
            BootstrapPeers := bootPeers
            ID := selfEndpoint
            MaxMessageCountToStore := 100
            MaxPropagationBurstLatency := 50 * goMillisecond
            MaxPropagationBurstSize := 3
            PropagateIterations := 1
            PropagatePeerNum := 3
            PullInterval := 5 * goSecond
            PullPeerNum := 3
            SelfEndpoint := selfEndpoint }

/-- UTF-8 bytes of one character, modelling Go's `[]byte(string)` conversion. -/
def charUTF8 (c : Char) : List Nat :=
  let n := c.toNat
  if n < 128 then [n]
  else if n < 2048 then [192 + n / 64, 128 + n % 64]
  else if n < 65536 then [224 + n / 4096, 128 + n / 64 % 64, 128 + n % 64]
  else [240 + n / 262144, 128 + n / 4096 % 64, 128 + n / 64 % 64, 128 + n % 64]

/-- Go `[]byte(s)`: the UTF-8 bytes of a string. -/
def stringBytes (s : List Char) : List Nat := (s.map charUTF8).flatten

/-- The two concrete identity-provider types defined in the source:
`impl` is `naiveCryptoServiceImpl`, `naive` is `naiveCryptoService`. -/
inductive CryptoVariant
  | impl
  | naive
deriving DecidableEq, Repr

/-- `NewGossipCryptoService()` returns `&naiveCryptoServiceImpl\x7b\x7d`. -/
def NewGossipCryptoService : CryptoVariant := .impl

/-- `api.PeerIdentityType`: raw identity bytes. -/
abbrev PeerIdentityType := List Nat

/-- Modelled from the spec: `common.PKIidType` (package gossip/common is not
under src/) is "a typed identifier derived from a peer's identity material",
a typed wrapper over raw bytes. -/
structure PKIidType where
  bytes : List Nat
deriving DecidableEq, Repr

/-- Modelled from the spec: `proto.AliveMessage` (package gossip/proto is not
under src/) is "an opaque externally-defined message type" carrying a payload
and a signature field that `SignMessage` "attaches/updates". -/
structure AliveMessage where
  payload : List Nat
  signature : List Nat
deriving DecidableEq, Repr

/-- Go `fmt` `%v` formatting of a byte slice: decimal values in brackets. -/
def formatByteSlice (bs : List Nat) : String :=
  "[" ++ String.intercalate " " (bs.map toString) ++ "]"

namespace naiveCryptoServiceImpl

/-- `naiveCryptoServiceImpl.ValidateAliveMsg`: always true. -/
def ValidateAliveMsg (_ : AliveMessage) : Bool := true

/-- `naiveCryptoServiceImpl.Verify`: error "Wrong signature" unless the
signature bytes equal the message bytes. -/
def Verify (_vkID signature message : List Nat) : Option String :=
  if !(bytesEqual signature message) then some "Wrong signature" else none

/-- `naiveCryptoServiceImpl.SignMessage`: returns the message unchanged. -/
def SignMessage (msg : AliveMessage) : AliveMessage := msg

/-- `naiveCryptoServiceImpl.IsEnabled`: returns false. -/
def IsEnabled : Bool := false

/-- `naiveCryptoServiceImpl.Sign`: returns the message itself and a nil error. -/
def Sign (msg : List Nat) : List Nat × Option String := (msg, none)

end naiveCryptoServiceImpl

namespace naiveCryptoService

/-- `naiveCryptoService.Verify`: error "Wrong signature:sig, msg" unless the
signature bytes equal the message bytes. -/
def Verify (_peerIdentity : PeerIdentityType) (signature message : List Nat) : Option String :=
  let equal := bytesEqual signature message
  if !equal then
    some ("Wrong signature:" ++ formatByteSlice signature ++ ", " ++ formatByteSlice message)
  else none

/-- `naiveCryptoService.ValidateAliveMsg`: always true. -/
def ValidateAliveMsg (_ : AliveMessage) : Bool := true

/-- `naiveCryptoService.SignMessage`: returns the message unchanged. -/
def SignMessage (am : AliveMessage) : AliveMessage := am

/-- `naiveCryptoService.IsEnabled`: returns true. -/
def IsEnabled : Bool := true

/-- `naiveCryptoService.ValidateIdentity`: always a nil error. -/
def ValidateIdentity (_peerIdentity : PeerIdentityType) : Option String := none

/-- `naiveCryptoService.GetPKIidOfCert`: the type conversion
`common.PKIidType(peerIdentity)`. -/
def GetPKIidOfCert (peerIdentity : PeerIdentityType) : PKIidType := ⟨peerIdentity⟩

/-- `naiveCryptoService.Sign`: returns the message itself and a nil error. -/
def Sign (msg : List Nat) : List Nat × Option String := (msg, none)

end naiveCryptoService

/-- `IsEnabled` of a given provider variant. -/
def IsEnabledOf : CryptoVariant → Bool
  | .impl => naiveCryptoServiceImpl.IsEnabled
  | .naive => naiveCryptoService.IsEnabled

/-- `Verify` of a given provider variant (identity argument first). -/
def VerifyOf (v : CryptoVariant) (identity signature message : List Nat) : Option String :=
  match v with
  | .impl => naiveCryptoServiceImpl.Verify identity signature message
  | .naive => naiveCryptoService.Verify identity signature message

/-- Modelled from the spec: the communication handle built by
`comm.NewCommInstance` (package gossip/comm is not under src/) records the
identity provider and the self-identity bytes it was constructed with
("using an always-valid identity provider instance and the raw bytes of
selfEndpoint as this node's self-identity"). -/
structure CommHandle where
  securityProvider : CryptoVariant
  selfIdentity : List Nat
deriving DecidableEq, Repr

/-- `newComm(selfEndpoint, s, ...)`: calls
`comm.NewCommInstance(s, NewGossipCryptoService(), []byte(selfEndpoint), ...)`. -/
def newComm (selfEndpoint : List Char) : CommHandle :=
  { securityProvider := NewGossipCryptoService
    selfIdentity := stringBytes selfEndpoint }

/-- Modelled from the spec: the gossip-service instance built by
`gossip.NewGossipService(conf, comm, mcs, crypto, selfIdentity)` (package
gossip/gossip is not under src/) records the wiring arguments it is given. -/
structure GossipNode where
  conf : Config
  commHandle : CommHandle
  mcs : CryptoVariant
  crypto : CryptoVariant
  selfIdentity : List Nat
deriving DecidableEq, Repr

/-- `NewGossipComponent(endpoint, s, bootPeers...)`: `newConfig` then `newComm`
then `gossip.NewGossipService(conf, comm, &naiveCryptoService\x7b\x7d,
NewGossipCryptoService(), api.PeerIdentityType(conf.ID))`; a panic in
`newConfig` aborts before anything is constructed. -/
def NewGossipComponent (endpoint : List Char) (bootPeers : List (List Char)) :
    Except BootstrapError (GossipNode × CommHandle) :=
  match newConfig endpoint bootPeers with
  | .error e => .error e
  | .ok conf =>
    let c := newComm endpoint
    .ok ({ conf := conf
           commHandle := c
           mcs := .naive
           crypto := NewGossipCryptoService
           selfIdentity := stringBytes conf.ID }, c)

/-! Helper lemmas about `goSplit` and `newConfig`. -/

theorem goSplit_no_sep (sep : Char) (l : List Char) (h : sep ∉ l) : goSplit sep l = [l] := by
  induction l with
  | nil => rfl
  | cons c rest ih =>
    have hc : c ≠ sep := fun hc => h (hc ▸ List.mem_cons_self c rest)
    have hr : sep ∉ rest := fun hm => h (List.mem_cons_of_mem c hm)
    simp [goSplit, hc, ih hr]

theorem goSplit_append (sep : Char) (h t : List Char) (hh : sep ∉ h) :
    goSplit sep (h ++ sep :: t) = h :: goSplit sep t := by
  induction h with
  | nil => simp [goSplit]
  | cons c h' ih =>
    have hc : c ≠ sep := fun hc => hh (hc ▸ List.mem_cons_self c h')
    have hr : sep ∉ h' := fun hm => hh (List.mem_cons_of_mem c hm)
    simp [goSplit, hc, ih hr]

theorem newConfig_noColon (endpoint : List Char) (ps : List (List Char)) (h : ':' ∉ endpoint) :
    newConfig endpoint ps = .error .indexOutOfRange := by
  simp [newConfig, goSplit_no_sep ':' endpoint h]

theorem newConfig_parseFail (endpoint : List Char) (ps : List (List Char)) (seg : List Char)
    (h1 : (goSplit ':' endpoint)[1]? = some seg) (h2 : parseInt64 seg = none) :
    newConfig endpoint ps = .error .configParseError := by
  simp [newConfig, h1, h2]

theorem newConfig_ok (endpoint portSeg : List Char) (ps : List (List Char)) (v : Int)
    (h1 : (goSplit ':' endpoint)[1]? = some portSeg) (h2 : parseInt64 portSeg = some v) :
    newConfig endpoint ps =
      .ok { BindPort := v
            BootstrapPeers := ps
            ID := endpoint
            MaxMessageCountToStore := 100
            MaxPropagationBurstLatency := 50 * goMillisecond
            MaxPropagationBurstSize := 3
            PropagateIterations := 1
            PropagatePeerNum := 3
            PullInterval := 5 * goSecond
            PullPeerNum := 3
            SelfEndpoint := endpoint } := by
  simp [newConfig, h1, h2]

theorem NewGossipComponent_error (endpoint : List Char) (ps : List (List Char))
    (e : BootstrapError) (h : newConfig endpoint ps = .error e) :
    NewGossipComponent endpoint ps = .error e := by
  simp [NewGossipComponent, h]

/-! Claim theorems. -/

/-- C1 counterexample: at selfEndpoint "a:1", the provider passed by `newComm`
to `comm.NewCommInstance` is NOT the variant whose `IsEnabled()` returns true
(it is `naiveCryptoServiceImpl`, whose `IsEnabled()` returns false). -/
theorem newComm_provider_not_enabled_at_a1 :
    ¬ (IsEnabledOf (newComm ['a', ':', '1']).securityProvider = true) := by
  decide

/-- C1 (amended): for every selfEndpoint, the communication handle is
constructed with the provider returned by `NewGossipCryptoService()` — the
`naiveCryptoServiceImpl` variant, whose `IsEnabled()` returns false — together
with the raw bytes of selfEndpoint as the node's self-identity. -/
theorem newComm_uses_disabled_provider_and_raw_bytes (selfEndpoint : List Char) :
    (newComm selfEndpoint).securityProvider = NewGossipCryptoService ∧
    IsEnabledOf (newComm selfEndpoint).securityProvider = false ∧
    (newComm selfEndpoint).selfIdentity = stringBytes selfEndpoint :=
  ⟨rfl, rfl, rfl⟩

/-- C2: for every endpoint of the form host ++ ":" ++ port, where host and
port contain no further ':' and the port segment parses as a base-10 64-bit
integer v, `newConfig` returns a config with BindPort = v, ID and SelfEndpoint
equal to the endpoint, BootstrapPeers the supplied list verbatim, and the
fixed defaults 100, 50ms, 3, 1, 3, 5s, 3. -/
theorem newConfig_wellFormed (host portSeg : List Char) (ps : List (List Char)) (v : Int)
    (hhost : ':' ∉ host) (hport : ':' ∉ portSeg) (hv : parseInt64 portSeg = some v) :
    newConfig (host ++ ':' :: portSeg) ps =
      .ok { BindPort := v
            BootstrapPeers := ps
            ID := host ++ ':' :: portSeg
            MaxMessageCountToStore := 100
            MaxPropagationBurstLatency := 50 * goMillisecond
            MaxPropagationBurstSize := 3
            PropagateIterations := 1
            PropagatePeerNum := 3
            PullInterval := 5 * goSecond
            PullPeerNum := 3
            SelfEndpoint := host ++ ':' :: portSeg } := by
  have hsplit : goSplit ':' (host ++ ':' :: portSeg) = host :: [portSeg] := by
    rw [goSplit_append ':' host portSeg hhost, goSplit_no_sep ':' portSeg hport]
  exact newConfig_ok _ portSeg ps v (by rw [hsplit]; rfl) hv

/-- C2 witness: endpoint "h:7051" with no bootstrap peers yields bind port
7051 and the documented defaults. -/
theorem newConfig_wellFormed_witness :
    newConfig ['h', ':', '7', '0', '5', '1'] [] =
      .ok { BindPort := 7051
            BootstrapPeers := []
            ID := ['h', ':', '7', '0', '5', '1']
            MaxMessageCountToStore := 100
            MaxPropagationBurstLatency := 50 * goMillisecond
            MaxPropagationBurstSize := 3
            PropagateIterations := 1
            PropagatePeerNum := 3
            PullInterval := 5 * goSecond
            PullPeerNum := 3
            SelfEndpoint := ['h', ':', '7', '0', '5', '1'] } := by
  exact newConfig_wellFormed ['h'] ['7', '0', '5', '1'] [] 7051
    (by decide) (by decide) (by decide)

/-- C3: for both provider variants and every identity argument, Verify
succeeds (nil error) exactly when signature equals message, and on any
mismatch it returns a (signature-mismatch) error. -/
theorem Verify_succeeds_iff_eq (v : CryptoVariant) (identity signature message : List Nat) :
    (VerifyOf v identity signature message = none ↔ signature = message) ∧
    (signature ≠ message → ∃ e, VerifyOf v identity signature message = some e) := by
  by_cases h : signature = message
  · subst h
    cases v <;>
      simp [VerifyOf, naiveCryptoServiceImpl.Verify, naiveCryptoService.Verify, bytesEqual]
  · cases v <;>
      simp [VerifyOf, naiveCryptoServiceImpl.Verify, naiveCryptoService.Verify, bytesEqual, h]

/-- C3 witness: concrete instance at signature [1], message [2]. -/
theorem Verify_succeeds_iff_eq_witness :
    (VerifyOf .impl [] [1] [2] = none ↔ ([1] : List Nat) = [2]) ∧
    (([1] : List Nat) ≠ [2] → ∃ e, VerifyOf .impl [] [1] [2] = some e) :=
  Verify_succeeds_iff_eq .impl [] [1] [2]

/-- C4: for every malformed selfEndpoint — no ':' at all, or the segment at
index 1 of the split fails integer parsing — `NewGossipComponent` aborts with
an error, producing neither a config, nor a gossip node, nor a comm handle. -/
theorem NewGossipComponent_malformed (endpoint : List Char) (ps : List (List Char))
    (h : ':' ∉ endpoint ∨
      ∃ seg, (goSplit ':' endpoint)[1]? = some seg ∧ parseInt64 seg = none) :
    ∃ e, NewGossipComponent endpoint ps = .error e := by
  rcases h with h | ⟨seg, h1, h2⟩
  · exact ⟨_, NewGossipComponent_error _ _ _ (newConfig_noColon endpoint ps h)⟩
  · exact ⟨_, NewGossipComponent_error _ _ _ (newConfig_parseFail endpoint ps seg h1 h2)⟩

/-- C4 witness: endpoint "h:x" (non-numeric port segment) aborts bootstrap. -/
theorem NewGossipComponent_malformed_witness :
    ∃ e, NewGossipComponent ['h', ':', 'x'] [] = .error e :=
  NewGossipComponent_malformed ['h', ':', 'x'] []
    (Or.inr ⟨['x'], by decide, by decide⟩)

/-- C5: the two provider variants make identical verification decisions: each
variant's Verify is independent of the identity argument, and for every
(signature, message) the impl variant succeeds exactly when the naive variant
succeeds. -/
theorem Verify_variants_agree (id1 id2 signature message : List Nat) :
    naiveCryptoServiceImpl.Verify id1 signature message =
      naiveCryptoServiceImpl.Verify id2 signature message ∧
    naiveCryptoService.Verify id1 signature message =
      naiveCryptoService.Verify id2 signature message ∧
    (naiveCryptoServiceImpl.Verify id1 signature message = none ↔
      naiveCryptoService.Verify id2 signature message = none) := by
  refine ⟨rfl, rfl, ?_⟩
  by_cases h : signature = message <;>
    simp [naiveCryptoServiceImpl.Verify, naiveCryptoService.Verify, bytesEqual, h]

/-- C6: `IsEnabled()` returns false on `naiveCryptoServiceImpl` (the disabled
variant) and true on `naiveCryptoService` (the always-valid variant); both are
constants, independent of any other call or state. -/
theorem IsEnabled_disabled_false_alwaysValid_true :
    naiveCryptoServiceImpl.IsEnabled = false ∧ naiveCryptoService.IsEnabled = true :=
  ⟨rfl, rfl⟩

/-- C7: in both variants, Sign returns its input with a nil error,
ValidateAliveMsg returns true for every AliveMessage, and SignMessage returns
the input message unchanged. -/
theorem Sign_identity_and_alive_stubs (m : List Nat) (am : AliveMessage) :
    naiveCryptoServiceImpl.Sign m = (m, none) ∧
    naiveCryptoService.Sign m = (m, none) ∧
    naiveCryptoServiceImpl.ValidateAliveMsg am = true ∧
    naiveCryptoService.ValidateAliveMsg am = true ∧
    naiveCryptoServiceImpl.SignMessage am = am ∧
    naiveCryptoService.SignMessage am = am :=
  ⟨rfl, rfl, rfl, rfl, rfl, rfl⟩

/-- C8: `GetPKIidOfCert` on the always-valid provider maps an identity to a
PKI-id whose underlying bytes equal the input identity bytes. -/
theorem GetPKIidOfCert_identity (identity : PeerIdentityType) :
    (naiveCryptoService.GetPKIidOfCert identity).bytes = identity :=
  rfl

/-- C9: for every selfEndpoint with no ':' separator, bootstrap aborts with
the index-out-of-range panic on element 1 of the split (which happens before
integer parsing), not with the ConfigParseError (integer-parse) panic. -/
theorem newConfig_noColon_indexOutOfRange (endpoint : List Char) (ps : List (List Char))
    (h : ':' ∉ endpoint) :
    newConfig endpoint ps = .error .indexOutOfRange ∧
    NewGossipComponent endpoint ps = .error .indexOutOfRange ∧
    BootstrapError.indexOutOfRange ≠ BootstrapError.configParseError := by
  have h1 := newConfig_noColon endpoint ps h
  exact ⟨h1, NewGossipComponent_error _ _ _ h1, by decide⟩

/-- C9 witness: endpoint "h" (no colon) aborts with the out-of-range panic. -/
theorem newConfig_noColon_indexOutOfRange_witness :
    newConfig ['h'] [] = .error .indexOutOfRange ∧
    NewGossipComponent ['h'] [] = .error .indexOutOfRange ∧
    BootstrapError.indexOutOfRange ≠ BootstrapError.configParseError :=
  newConfig_noColon_indexOutOfRange ['h'] [] (by decide)

/-- C10: for every endpoint with two or more ':' separators, the port is
parsed from the segment between the first and second ':' (split index 1): if
that segment parses to v, the config is built with BindPort = v and the rest
of the endpoint after the second ':' is ignored for port parsing. -/
theorem newConfig_multiColon (host seg rest : List Char) (ps : List (List Char)) (v : Int)
    (hhost : ':' ∉ host) (hseg : ':' ∉ seg) (hv : parseInt64 seg = some v) :
    ∃ c, newConfig (host ++ ':' :: (seg ++ ':' :: rest)) ps = .ok c ∧
      c.BindPort = v ∧ c.ID = host ++ ':' :: (seg ++ ':' :: rest) := by
  have hsplit : goSplit ':' (host ++ ':' :: (seg ++ ':' :: rest)) =
      host :: seg :: goSplit ':' rest := by
    rw [goSplit_append ':' host (seg ++ ':' :: rest) hhost, goSplit_append ':' seg rest hseg]
  exact ⟨_, newConfig_ok _ seg ps v (by rw [hsplit]; simp) hv, rfl, rfl⟩

/-- C10 witness: endpoint "h:1:2" yields bind port 1; the trailing ":2" is
ignored. -/
theorem newConfig_multiColon_witness :
    ∃ c, newConfig ['h', ':', '1', ':', '2'] [] = .ok c ∧
      c.BindPort = 1 ∧ c.ID = ['h', ':', '1', ':', '2'] :=
  newConfig_multiColon ['h'] ['1'] ['2'] [] 1 (by decide) (by decide) (by decide)

end FabricGossipIntegration
